import Mathlib

/-!
# CredLens — verification of the retrieve / classify / aggregate / score / cache pipeline

Shallow embedding of the algorithmic core of the CredLens repository
(`backend/app`), translated from the Python source.  Numeric values are
modelled by `ℚ` (the source uses Python floats on small decimal constants),
strings by `String` restricted to ASCII, and fallible code by `Except`.

Modules embedded here:
* `services/verifier.py`        — `NLIVerifier` fallback stance and evidence aggregation
* `services/industrial_fact_checker.py` — `_decide_verdict`, `_assess_language_safety`,
  `_calculate_final_scores`
* `services/evidence_based_verifier.py` — `_calculate_scores` (language safety part)
* `services/enhanced_fact_checker.py`   — `_calculate_credibility_scores`, `_generate_verdict`
* `services/credibility_scorer.py`      — `calculate_credibility_fingerprint` and helpers
* `services/retriever.py`       — `retrieve_similar_claims` over a FAISS flat inner-product index
* `models/claim.py`             — the pydantic `Evidence` and `CredibilityFingerprint` models
* `models/database.py`          — the `analysis_cache` table (`cache_analysis` / `get_cached_analysis`)
-/

namespace CredLens

/-- Python `str.upper()` restricted to ASCII input (`Char.toUpper` maps `a`-`z` only). -/
def pyUpper (s : String) : String := String.mk (s.data.map Char.toUpper)

/-- Python `str.lower()` restricted to ASCII input. -/
def pyLower (s : String) : String := String.mk (s.data.map Char.toLower)

/-! ## `NLIVerifier.aggregate_evidence_verdict` (services/verifier.py, lines 130-173)

The aggregator reads the duck-typed attributes `nli_label`, `confidence` and
`similarity_score` of each evidence object; we model such an object by a
structure with exactly those fields. -/

/-- An evidence object as consumed by `aggregate_evidence_verdict`. -/
structure AggEvidence where
  nli_label : String
  confidence : ℚ
  similarity_score : ℚ
deriving DecidableEq

/-- Models `weight = (evidence.confidence + evidence.similarity_score) / 2` (verifier.py line 141). -/
def aggWeight (e : AggEvidence) : ℚ := (e.confidence + e.similarity_score) / 2

/-- Accumulated `entailment_score` of the loop in verifier.py lines 140-148. -/
def entailmentScore (l : List AggEvidence) : ℚ :=
  ((l.filter fun e => e.nli_label == "ENTAILMENT").map aggWeight).sum

/-- Accumulated `contradiction_score` of the loop in verifier.py lines 140-148. -/
def contradictionScore (l : List AggEvidence) : ℚ :=
  ((l.filter fun e => e.nli_label == "CONTRADICTION").map aggWeight).sum

/-- Accumulated `neutral_score` (the `else` branch) of the loop in verifier.py lines 140-148. -/
def neutralScore (l : List AggEvidence) : ℚ :=
  ((l.filter fun e => e.nli_label != "ENTAILMENT" && e.nli_label != "CONTRADICTION").map
    aggWeight).sum

/-- Models `total_score = entailment_score + contradiction_score + neutral_score` (line 150). -/
def totalScoreAgg (l : List AggEvidence) : ℚ :=
  entailmentScore l + contradictionScore l + neutralScore l

/-- The explanation messages of `aggregate_evidence_verdict`, with their numeric
interpolations carried as arguments. -/
inductive AggExplanation where
  | noEvidenceFound
  | unableToDetermine
  | largelySupports (pct : ℚ)
  | largelyContradicts (pct : ℚ)
  | mixedEvidence (supportPct contradictPct : ℚ)
  | inconclusive
deriving DecidableEq

/-- Models `NLIVerifier.aggregate_evidence_verdict` (verifier.py lines 130-173): weighted
stance totals, normalisation, then the threshold cascade.  The float literals
`0.6` and `0.2` are modelled by the rationals `6/10` and `2/10`. -/
def aggregateEvidenceVerdict (l : List AggEvidence) : String × AggExplanation :=
  if l = [] then ("UNVERIFIED", .noEvidenceFound)
  else if totalScoreAgg l = 0 then ("UNVERIFIED", .unableToDetermine)
  else
    let ep := entailmentScore l / totalScoreAgg l
    let cp := contradictionScore l / totalScoreAgg l
    if ep > 6/10 then ("LIKELY_TRUE", .largelySupports ep)
    else if cp > 6/10 then ("LIKELY_FALSE", .largelyContradicts cp)
    else if |ep - cp| < 2/10 then ("MIXED", .mixedEvidence ep cp)
    else ("UNVERIFIED", .inconclusive)

/-! ## `IndustrialFactChecker._decide_verdict` (industrial_fact_checker.py, lines 596-633) -/

/-- The fields of the `evidence_comparison` dict read by `_decide_verdict`
(weights from `_compare_against_evidence`, counts of the stance lists). -/
structure EvidenceComparison where
  supportWeight : ℚ
  contradictWeight : ℚ
  neutralWeight : ℚ
  supportingCount : ℕ
  contradictingCount : ℕ
deriving DecidableEq

/-- Models `total_weight = support_weight + contradict_weight + neutral_weight` (line 607). -/
def totalWeight (ec : EvidenceComparison) : ℚ :=
  ec.supportWeight + ec.contradictWeight + ec.neutralWeight

/-- Models `support_ratio = support_weight / total_weight` (line 610). -/
def supportShare (ec : EvidenceComparison) : ℚ := ec.supportWeight / totalWeight ec

/-- Models `contradict_ratio = contradict_weight / total_weight` (line 611). -/
def contradictShare (ec : EvidenceComparison) : ℚ := ec.contradictWeight / totalWeight ec

/-- Models `IndustrialFactChecker._decide_verdict` (lines 596-633), branch for branch. -/
def decideVerdict (ec : EvidenceComparison) : String :=
  if 0 < totalWeight ec then
    if supportShare ec > 7/10 ∧ ec.supportingCount ≥ 2 ∧ ec.supportWeight > 150 then "TRUE"
    else if contradictShare ec > 7/10 ∧ ec.contradictingCount ≥ 2 ∧ ec.contradictWeight > 150
      then "FALSE"
    else if supportShare ec > 6/10 ∧ ec.supportWeight > 100 then "TRUE"
    else if contradictShare ec > 6/10 ∧ ec.contradictWeight > 100 then "FALSE"
    else if |supportShare ec - contradictShare ec| < 2/10 then "AMBIGUOUS"
    else if supportShare ec > contradictShare ec then "TRUE"
    else "FALSE"
  else "AMBIGUOUS"

/-- Concrete evidence list used to separate `aggregate_evidence_verdict` from the
spec sentence: one ENTAILMENT item and one NEUTRAL item of equal weight `1/2`. -/
def evC1 : List AggEvidence :=
  [⟨"ENTAILMENT", 1/2, 1/2⟩, ⟨"NEUTRAL", 1/2, 1/2⟩]

/-- Concrete comparison for the witness: shares `1/2` and `1/5`. -/
def ecC1 : EvidenceComparison := ⟨50, 20, 30, 1, 1⟩

/-! ## models/evidence.py `FactCheck` and models/claim.py `Evidence`

`FactCheck` has no required-field pitfalls (plain typed fields), so it is a
plain structure.  The claim.py `Evidence` pydantic model declares `type`,
`reliability_score` and `verification_method` with `Field(...)`, i.e. required;
constructing it is therefore modelled by a checked constructor over the keyword
arguments actually passed. -/

/-- models/evidence.py `FactCheck`. -/
structure FactCheck where
  id : ℤ
  claim : String
  verdict : String
  explanation : String
  source : String
  source_url : Option String
  date_published : Option String
  embedding : Option (List ℚ)
deriving DecidableEq

/-- A Python value passed as a keyword argument. -/
inductive PyVal where
  | str (s : String)
  | num (q : ℚ)
  | noneV
deriving DecidableEq

/-- Errors raised by the modelled Python code. -/
inductive PyError where
  | validationError (missingFields : List String)
  | attributeError (attr : String)
deriving DecidableEq

/-- Keyword-argument lookup (first binding wins, as in a Python call). -/
def pyLookup (kwargs : List (String × PyVal)) (k : String) : Option PyVal :=
  (kwargs.find? (fun p => p.1 == k)).map (·.2)

/-- claim.py `Evidence` model (lines 34-42); the Python field `type` is spelled
`etype` because `type` is reserved in Lean. -/
structure PyEvidence where
  text : String
  source : String
  url : Option String
  etype : String
  reliability_score : ℚ
  date : Option String
  region : Option String
  verification_method : String
deriving DecidableEq

/-- The fields of claim.py `Evidence` that have no default and are therefore
required by pydantic. -/
def pyEvidenceRequired : List String :=
  ["text", "source", "type", "reliability_score", "verification_method"]

/-- Reads an optional `str` field (absent or `None` gives Python `None`). -/
def optStrField (kwargs : List (String × PyVal)) (k : String) : Option String :=
  match pyLookup kwargs k with
  | some (.str s) => some s
  | _ => none

/-- Constructing claim.py `Evidence(...)`: pydantic ignores unknown keyword
arguments but raises a `ValidationError` when a required field is missing. -/
def mkEvidence (kwargs : List (String × PyVal)) : Except PyError PyEvidence :=
  match pyLookup kwargs "text", pyLookup kwargs "source", pyLookup kwargs "type",
      pyLookup kwargs "reliability_score", pyLookup kwargs "verification_method" with
  | some (.str text), some (.str source), some (.str t), some (.num r), some (.str vm) =>
      .ok { text := text, source := source, url := optStrField kwargs "url", etype := t,
            reliability_score := r, date := optStrField kwargs "date",
            region := optStrField kwargs "region", verification_method := vm }
  | _, _, _, _, _ =>
      .error (.validationError
        (pyEvidenceRequired.filter (fun f => (pyLookup kwargs f).isNone)))

/-! ## `NLIVerifier` fallback classification (services/verifier.py, lines 36-128) -/

/-- The stance heuristic of `_fallback_verification` (verifier.py lines 105-115):
label and confidence start as `("NEUTRAL", similarity_score)` and are reassigned
on a TRUE or FALSE stored verdict.  The float literals `0.8` and `0.1` are the
rationals `8/10` and `1/10`. -/
def fallbackStance (fc : FactCheck) (similarity_score : ℚ) : String × ℚ :=
  if pyUpper fc.verdict = "TRUE" then ("ENTAILMENT", min (8/10) (similarity_score + 1/10))
  else if pyUpper fc.verdict = "FALSE" then
    ("CONTRADICTION", min (8/10) (similarity_score + 1/10))
  else ("NEUTRAL", similarity_score)

/-- The keyword arguments of every `Evidence(...)` call in verifier.py
(lines 71-78, 85-92 and 117-124): `type`, `reliability_score` and
`verification_method` are not among them. -/
def verifierEvidenceKwargs (fc : FactCheck) (similarity_score : ℚ) (lbl : String) (conf : ℚ) :
    List (String × PyVal) :=
  [("text", .str fc.explanation), ("source", .str fc.source),
   ("url", match fc.source_url with | some u => .str u | none => .noneV),
   ("nli_label", .str lbl), ("confidence", .num conf),
   ("similarity_score", .num similarity_score)]

/-- Models `NLIVerifier._fallback_verification` (lines 97-128): per retrieved pair,
compute the heuristic stance, then construct `Evidence`. -/
def fallbackVerification (claim : String) : List (FactCheck × ℚ) →
    Except PyError (List PyEvidence)
  | [] => .ok []
  | (fc, sim) :: rest =>
    let lbl := (fallbackStance fc sim).1
    let conf := (fallbackStance fc sim).2
    match mkEvidence (verifierEvidenceKwargs fc sim lbl conf) with
    | .error e => .error e
    | .ok ev =>
      match fallbackVerification claim rest with
      | .error e => .error e
      | .ok l => .ok (ev :: l)

/-- One iteration of the NLI loop in `verify_claim_against_evidence`
(lines 48-93).  `res` is the outcome of the `self.nli_pipeline(...)` call:
`some (label, confidence)` on a normal return, `none` when it raises.  A
`ValidationError` from the try-branch `Evidence(...)` is caught by
`except Exception`, whose own fallback `Evidence(...)` with
`nli_label="NEUTRAL", confidence=0.5` then raises uncaught. -/
def verifyOne (fc : FactCheck) (sim : ℚ) (res : Option (String × ℚ)) :
    Except PyError PyEvidence :=
  match res with
  | some (lbl, conf) =>
    match mkEvidence (verifierEvidenceKwargs fc sim lbl conf) with
    | .ok ev => .ok ev
    | .error _ => mkEvidence (verifierEvidenceKwargs fc sim "NEUTRAL" (1/2))
  | none => mkEvidence (verifierEvidenceKwargs fc sim "NEUTRAL" (1/2))

/-- The NLI loop of `verify_claim_against_evidence` (lines 46-95). -/
def verifyNLIList (nli : String → FactCheck → Option (String × ℚ)) (claim : String) :
    List (FactCheck × ℚ) → Except PyError (List PyEvidence)
  | [] => .ok []
  | (fc, sim) :: rest =>
    match verifyOne fc sim (nli claim fc) with
    | .error e => .error e
    | .ok ev =>
      match verifyNLIList nli claim rest with
      | .error e => .error e
      | .ok l => .ok (ev :: l)

/-- Models `NLIVerifier.verify_claim_against_evidence` (lines 36-95), parameterised by
whether the NLI pipeline loaded and by the pipeline itself. -/
def verifyClaimAgainstEvidence (nliLoaded : Bool) (nli : String → FactCheck → Option (String × ℚ))
    (claim : String) (rfcs : List (FactCheck × ℚ)) : Except PyError (List PyEvidence) :=
  if !nliLoaded then fallbackVerification claim rfcs
  else verifyNLIList nli claim rfcs

/-! ## `EnhancedFactChecker` scoring (services/enhanced_fact_checker.py, lines 311-449) -/

/-- An evidence object as categorised by `_analyze_evidence`: its `type` field
(spelled `etype`) is set to SUPPORT / CONTRADICT / CONTEXT and its
`reliability_score` is accumulated into `total_reliability`. -/
structure EnhEvidence where
  etype : String
  reliability_score : ℚ
deriving DecidableEq

/-- The `analysis_result` dict built by `_analyze_evidence` (lines 311-360). -/
structure EvidenceAnalysis where
  supporting : List EnhEvidence
  contradicting : List EnhEvidence
  contextual : List EnhEvidence
  total_reliability : ℚ
deriving DecidableEq

/-- The walrus-bound `evidence_list` of `_calculate_credibility_scores`
(lines 367-371): supporting ++ contradicting ++ contextual. -/
def enhEvidenceList (a : EvidenceAnalysis) : List EnhEvidence :=
  a.supporting ++ a.contradicting ++ a.contextual

/-- Models `avg_reliability` (lines 367-374): `total_reliability / len(evidence_list)`,
or the default `50.0` when the list is empty. -/
def avgReliability (a : EvidenceAnalysis) : ℚ :=
  if enhEvidenceList a = [] then 50
  else a.total_reliability / ((enhEvidenceList a).length : ℚ)

/-- The unclamped `credibility` of lines 380-387: contradictions count double,
scaled by average source reliability; `50.0` when there is no SUPPORT or
CONTRADICT evidence. -/
def enhCredibility (a : EvidenceAnalysis) : ℚ :=
  let s := a.supporting.length
  let c := a.contradicting.length
  if 0 < s + c then ((s : ℚ) * 100 / ((s : ℚ) + (c : ℚ) * 2)) * (avgReliability a / 100)
  else 50

/-- Models `language_safety` (lines 389-393): 100 minus 10 per CONTRADICT item. -/
def enhLanguageSafety (a : EvidenceAnalysis) : ℚ :=
  100 - 10 * (((enhEvidenceList a).filter (fun e => e.etype == "CONTRADICT")).length : ℚ)

/-- claim.py `CredibilityFingerprint` (lines 27-32).  The count fields are
Python ints; they are modelled in `ℚ` alongside the score fields. -/
structure CredFingerprint where
  overall_credibility : ℚ
  source_trust : ℚ
  corroboration_count : ℚ
  contradiction_count : ℚ
  language_safety : ℚ
deriving DecidableEq

/-- Models `EnhancedFactChecker._calculate_credibility_scores` (lines 362-401).  This
call site passes every required field of `CredibilityFingerprint` by its
declared name, so the construction succeeds and is modelled directly. -/
def calculateCredibilityScores (a : EvidenceAnalysis) : CredFingerprint :=
  { overall_credibility := max 0 (min 100 (enhCredibility a))
    source_trust := avgReliability a
    corroboration_count := (a.supporting.length : ℚ)
    contradiction_count := (a.contradicting.length : ℚ)
    language_safety := max 0 (min 100 (enhLanguageSafety a)) }

/-- The verdict branch of `_generate_verdict` (lines 408-422). -/
def generateVerdict (a : EvidenceAnalysis) (scores : CredFingerprint) : String :=
  if 0 < a.supporting.length ∧ scores.overall_credibility ≥ 80 then "TRUE"
  else if 0 < a.contradicting.length ∨ scores.overall_credibility ≤ 40 then "FALSE"
  else "AMBIGUOUS"

/-- Appending one SUPPORT evidence item of reliability `r`, as `_analyze_evidence`
would classify one more entailment item: it lands in `supporting` with
its `type` field set to SUPPORT and its reliability is added to `total_reliability`. -/
def appendSupport (a : EvidenceAnalysis) (r : ℚ) : EvidenceAnalysis :=
  { a with supporting := a.supporting ++ [⟨"SUPPORT", r⟩],
           total_reliability := a.total_reliability + r }

/-! ## Text matching (ASCII model of the `re` patterns used by the scorers)

Every pattern occurring in the sources is either a literal, a literal wrapped
in word boundaries starting and ending with a word character, or a run of
exclamation marks; the functions below model exactly those forms with
`re.findall` (left-to-right, non-overlapping) and `re.search` semantics. -/

/-- The apostrophe character (codepoint 39). -/
def apos : Char := Char.ofNat 39

/-- The apostrophe as a one-character string. -/
def aposS : String := String.singleton apos

/-- A regex word character: letters, digits and underscore (ASCII). -/
def isWordChar (c : Char) : Bool := c.isAlphanum || c == '_'

/-- True when `pat` occurs literally at the head of `txt`. -/
def headMatch : List Char → List Char → Bool
  | [], _ => true
  | _ :: _, [] => false
  | p :: ps, t :: ts => p == t && headMatch ps ts

/-- A word-boundary-delimited match of the literal `pat` (which starts and ends
with a word character) at the current position, where `prev` is the character
immediately before that position (`none` at the start of the text). -/
def wbMatchAt (prev : Option Char) (pat txt : List Char) : Bool :=
  (match prev with | some c => !isWordChar c | none => true) &&
  headMatch pat txt &&
  (match txt.drop pat.length with | [] => true | c :: _ => !isWordChar c)

/-- Left-to-right `re.findall` scan of a word-bounded literal, one character
per step: `skip` counts the characters still inside the previous match (a new
match cannot start there), `prev` is the previous character.  A match at the
current position counts once and skips the rest of the pattern, giving
non-overlapping matches exactly as `re.findall` does. -/
def wbCountSkip (pat : List Char) : ℕ → Option Char → List Char → ℕ
  | _, _, [] => 0
  | 0, prev, t :: ts =>
    if wbMatchAt prev pat (t :: ts) then 1 + wbCountSkip pat (pat.length - 1) (some t) ts
    else wbCountSkip pat 0 (some t) ts
  | k + 1, _, t :: ts => wbCountSkip pat k (some t) ts

/-- Match count of a word-bounded literal pattern over a string. -/
def wbCount (pat : String) (txt : String) : ℕ := wbCountSkip pat.data 0 none txt.data

/-- Models `re.search` of a word-bounded literal pattern. -/
def wbSearch (pat : String) (txt : String) : Bool := 0 < wbCount pat txt

/-- Left-to-right `re.findall` scan of a plain (unbounded) literal, with the
same skip-state as `wbCountSkip`. -/
def subCountSkip (pat : List Char) : ℕ → List Char → ℕ
  | _, [] => 0
  | 0, t :: ts =>
    if headMatch pat (t :: ts) then 1 + subCountSkip pat (pat.length - 1) ts
    else subCountSkip pat 0 ts
  | k + 1, _ :: ts => subCountSkip pat k ts

/-- Match count of a plain literal pattern over a string. -/
def subCount (pat : String) (txt : String) : ℕ := subCountSkip pat.data 0 txt.data

/-- Helper for `strContains`: containment strictly after the head position. -/
def auxContains (pat : List Char) : List Char → Bool
  | [] => false
  | _ :: ts => headMatch pat ts || auxContains pat ts

/-- Python substring containment (`pat in txt`), i.e. `re.search` of a literal. -/
def strContains (txt pat : String) : Bool :=
  headMatch pat.data txt.data || auxContains pat.data txt.data

/-- Scan for the industrial pattern `!` `!` repeated at least twice more:
`n` is the length of the current run of exclamation marks; a maximal run of
`n ≥ 3` yields exactly one greedy `re.findall` match. -/
def bangRunCountGo : ℕ → List Char → ℕ
  | n, [] => if 3 ≤ n then 1 else 0
  | n, c :: ts =>
    if c == '!' then bangRunCountGo (n + 1) ts
    else (if 3 ≤ n then 1 else 0) + bangRunCountGo 0 ts

/-- Models `re.findall` match count of the industrial exclamation-run pattern. -/
def bangRunCount (l : List Char) : ℕ := bangRunCountGo 0 l

/-- Count of uppercase characters (`c.isupper()` over the text). -/
def upperCount (s : String) : ℕ := (s.data.filter Char.isUpper).length

/-- Models `caps_ratio = uppercase count / max(len(text), 1)` as an exact rational. -/
def capsRatio (text : String) : ℚ := (upperCount text : ℚ) / (max text.length 1 : ℚ)

/-! ## `IndustrialFactChecker._assess_language_safety` (industrial_fact_checker.py, lines 779-805) -/

/-- The THEY-DO-NOT-WANT-YOU-TO-KNOW pattern literal, apostrophe included. -/
def theyDontWant : String := "THEY DON" ++ aposS ++ "T WANT YOU TO KNOW"

/-- Total `re.findall` match count of the ten `sensational_patterns`
(lines 784-788) over the uppercased text. -/
def sensationalPatternCount (textU : String) : ℕ :=
  wbCount "SHOCKING" textU + wbCount "UNBELIEVABLE" textU + wbCount "STUNNING" textU +
  subCount theyDontWant textU + subCount "DOCTORS HATE" textU + subCount "BIG PHARMA" textU +
  bangRunCount textU.data + wbCount "SCAM" textU + wbCount "LIES" textU +
  subCount "CLICK HERE" textU

/-- Models `IndustrialFactChecker._assess_language_safety` (lines 779-805): 100, minus
15 per sensational-pattern match, minus 20 when more than 30 percent of the
characters are uppercase, minus 10 per emotion pattern present, clamped
to [0, 100]. -/
def assessLanguageSafety (text : String) : ℤ :=
  let textU := pyUpper text
  let base : ℤ := 100 - 15 * (sensationalPatternCount textU : ℤ)
  let afterCaps : ℤ := if capsRatio text > 3/10 then base - 20 else base
  let afterEmotion : ℤ := afterCaps -
    (if wbSearch "TERRIFYING" textU then 10 else 0) -
    (if wbSearch "DANGEROUS" textU then 10 else 0) -
    (if wbSearch "DEADLY" textU then 10 else 0)
  max 0 (min 100 afterEmotion)

/-! ## `EvidenceBasedVerifier._calculate_scores`, language-safety part
(evidence_based_verifier.py, lines 33-39 and 235-240) -/

/-- The YOU-WONT-BELIEVE pattern literal, apostrophe included. -/
def youWontBelieve : String := "YOU WON" ++ aposS ++ "T BELIEVE"

/-- Number of the fifteen `sensational_patterns` (lines 33-39) that
`re.search(pattern, claim, re.IGNORECASE)` finds at least once: one deduction
per pattern, however many times it occurs.  Case-insensitivity is modelled by
matching the uppercase patterns against the uppercased claim. -/
def ebSensationalHits (textU : String) : ℕ :=
  (if wbSearch "SHOCKING" textU then 1 else 0) +
  (if wbSearch "UNBELIEVABLE" textU then 1 else 0) +
  (if wbSearch "STUNNING" textU then 1 else 0) +
  (if wbSearch "EXPLOSIVE" textU then 1 else 0) +
  (if wbSearch "SECRET" textU then 1 else 0) +
  (if wbSearch "HIDDEN" textU then 1 else 0) +
  (if wbSearch "COVER-UP" textU then 1 else 0) +
  (if wbSearch "CONSPIRACY" textU then 1 else 0) +
  (if wbSearch theyDontWant textU then 1 else 0) +
  (if wbSearch "MAINSTREAM MEDIA" textU then 1 else 0) +
  (if strContains textU "!!" then 1 else 0) +
  (if wbSearch "CLICK HERE" textU then 1 else 0) +
  (if wbSearch youWontBelieve textU then 1 else 0) +
  (if wbSearch "DOCTORS HATE" textU then 1 else 0) +
  (if wbSearch "THIS ONE TRICK" textU then 1 else 0)

/-- The `language_safety` computation of `_calculate_scores` (lines 235-240):
100 minus 15 per matching pattern, clamped below at 0. -/
def ebLanguageSafety (claim : String) : ℤ :=
  max 0 (100 - 15 * (ebSensationalHits (pyUpper claim) : ℤ))

/-- The claim of spec Scenario D. -/
def scenarioClaim : String :=
  "SHOCKING!! THEY DON" ++ aposS ++ "T WANT YOU TO KNOW THIS SECRET CURE!!"

/-! ## `CredibilityScorer.calculate_credibility_fingerprint`
(services/credibility_scorer.py, lines 12-39 and helpers)

The domain-trust lookup `URLHandler.get_source_credibility` and the
`urlparse(...).netloc` extraction live in other modules; they are passed in as
function parameters `getCred` and `extractDom`, over which all statements
quantify. -/

/-- Python truthiness of an optional string (`None` and the empty string are
falsy). -/
def pyTruthy : Option String → Bool
  | Option.none => false
  | some s => s != ""

/-- config.py `SUSPICIOUS_WORDS`. -/
def SUSPICIOUS_WORDS : List String :=
  ["shocking", "unbelievable", "incredible", "amazing", "breaking",
   "urgent", "must see", "revealed", "exposed", "secret", "hidden",
   "they don" ++ String.singleton apos ++ "t want you to know", "mainstream media", "cover-up",
   "conspiracy", "hoax", "fake news", "lies", "deception",
   "exclusive", "insider", "leaked", "bombshell"]

/-- utils/text_processing.py `is_suspicious_language`: the suspicious words
found as (case-insensitive) substrings of the text. -/
def suspiciousWordsFound (text : String) : List String :=
  SUSPICIOUS_WORDS.filter (fun w => strContains (pyLower text) (pyLower w))

/-- Number of `!` characters in the text (`text.count` of one character). -/
def exclamationCount (text : String) : ℕ := (text.data.filter (fun c => c == '!')).length

/-- Models `CredibilityScorer._calculate_language_risk` (lines 124-143): suspicious
words, exclamation marks and capitalisation each add a capped risk term;
the result is capped at 1. -/
def languageRisk (text : String) : ℚ :=
  let found := suspiciousWordsFound text
  let risk1 : ℚ := if 0 < found.length then min (5/10) ((found.length : ℚ) * (1/10)) else 0
  let ex := exclamationCount text
  let risk2 : ℚ := risk1 + (if 2 < ex then min (2/10) ((ex : ℚ) * (5/100)) else 0)
  let risk3 : ℚ := risk2 + (if capsRatio text > 1/10 then min (3/10) (capsRatio text) else 0)
  min 1 risk3

/-- Models `CredibilityScorer._calculate_source_credibility` (lines 87-113): domain
trust of a truthy source URL, else the average domain trust over evidence
items with truthy URLs, else the default `0.5`. -/
def calcSourceCredibility (getCred : String → ℚ) (extractDom : String → String)
    (source_url : Option String) (evidence_list : List PyEvidence) : ℚ :=
  if pyTruthy source_url then getCred (extractDom (source_url.getD ""))
  else
    let scores := ((evidence_list.filter (fun e => pyTruthy e.url)).map
      (fun e => getCred (extractDom (e.url.getD ""))))
    if scores ≠ [] then scores.sum / (scores.length : ℚ) else 1/2

/-- Models `CredibilityScorer._calculate_corroboration_count` (lines 115-122) filters
on `e.nli_label`, an attribute that the claim.py `Evidence` model does not
define, so the first element of any non-empty list raises `AttributeError`;
over the empty list the comprehension is empty and the count is 0. -/
def corroborationCount : List PyEvidence → Except PyError ℕ
  | [] => .ok 0
  | _ :: _ => .error (.attributeError "nli_label")

/-- Models `CredibilityScorer._calculate_overall_score` (lines 145-171).  The
evidence-quality bonus reads `e.confidence`, also undefined on the `Evidence`
model, so a non-empty list raises `AttributeError`; the empty list skips the
bonus and clamps the weighted combination to [0, 1]. -/
def calcOverallScore (source_credibility : ℚ) (corroboration_count : ℕ)
    (language_risk : ℚ) : List PyEvidence → Except PyError ℚ
  | [] => .ok (max 0 (min 1 (source_credibility * (4/10) +
      min (3/10) ((corroboration_count : ℚ) * (1/10)) - language_risk * (2/10))))
  | _ :: _ => .error (.attributeError "confidence")

/-- The required fields of the claim.py `CredibilityFingerprint` pydantic model
(lines 27-32), all declared with `Field(...)`. -/
def credFingerprintRequired : List String :=
  ["overall_credibility", "source_trust", "corroboration_count",
   "contradiction_count", "language_safety"]

/-- Numeric keyword-argument lookup. -/
def qLookup (kwargs : List (String × ℚ)) (k : String) : Option ℚ :=
  (kwargs.find? (fun p => p.1 == k)).map (·.2)

/-- Constructing claim.py `CredibilityFingerprint(...)`: pydantic ignores
unknown keyword arguments and raises `ValidationError` listing every missing
required field. -/
def mkCredibilityFingerprint (kwargs : List (String × ℚ)) : Except PyError CredFingerprint :=
  match qLookup kwargs "overall_credibility", qLookup kwargs "source_trust",
      qLookup kwargs "corroboration_count", qLookup kwargs "contradiction_count",
      qLookup kwargs "language_safety" with
  | some oc, some st, some cc, some cd, some ls => .ok ⟨oc, st, cc, cd, ls⟩
  | _, _, _, _, _ =>
      .error (.validationError
        (credFingerprintRequired.filter (fun f => (qLookup kwargs f).isNone)))

/-- Models `CredibilityScorer.calculate_credibility_fingerprint` (lines 12-39): the
four helper computations followed by the `CredibilityFingerprint(...)` call,
which passes the keyword arguments `source_credibility`, `corroboration_count`,
`language_risk` and `overall_score`. -/
def calculateCredibilityFingerprint (getCred : String → ℚ) (extractDom : String → String)
    (claim : String) (evidence_list : List PyEvidence) (source_url : Option String) :
    Except PyError CredFingerprint :=
  let source_credibility := calcSourceCredibility getCred extractDom source_url evidence_list
  match corroborationCount evidence_list with
  | .error e => .error e
  | .ok cc =>
    let language_risk := languageRisk claim
    match calcOverallScore source_credibility cc language_risk evidence_list with
    | .error e => .error e
    | .ok overall_score =>
      mkCredibilityFingerprint
        [("source_credibility", source_credibility), ("corroboration_count", (cc : ℚ)),
         ("language_risk", language_risk), ("overall_score", overall_score)]

/-! ## `SemanticRetriever.retrieve_similar_claims` (services/retriever.py, lines 87-111)

The FAISS flat inner-product index returns, for a query, arrays `scores` and
`indices` of length exactly `top_k`: the `min(top_k, n)` stored vectors of
highest inner product in descending order (ties by ascending insertion index),
padded, when `top_k` exceeds the corpus size `n`, with index `-1` and the
sentinel score `-FLT_MAX`.  The query embedding is abstracted by the list
`sims` of its similarity to each stored record, in insertion order. -/

/-- The FAISS padding score for unfilled inner-product result slots
(`-FLT_MAX`). -/
def faissPadScore : ℚ := -(340282346638528859811704183484516925440 : ℚ)

/-- Insertion into a descending-by-score list, after any equal score (keeping
insertion order on ties). -/
def insertDesc (p : ℚ × ℤ) : List (ℚ × ℤ) → List (ℚ × ℤ)
  | [] => [p]
  | q :: qs => if q.1 < p.1 then p :: q :: qs else q :: insertDesc p qs

/-- Stable descending sort by score of `(score, index)` pairs. -/
def sortDesc (l : List (ℚ × ℤ)) : List (ℚ × ℤ) := l.foldl (fun acc p => insertDesc p acc) []

/-- Models `self.index.search(query_embedding, top_k)` on a flat inner-product index
holding `sims.length` vectors, returning exactly `top_k` `(score, index)`
slots. -/
def faissSearch (sims : List ℚ) (top_k : ℕ) : List (ℚ × ℤ) :=
  let ranked := sortDesc (sims.enum.map (fun p => (p.2, (p.1 : ℤ))))
  let top := ranked.take top_k
  top ++ List.replicate (top_k - top.length) (faissPadScore, -1)

/-- Python list indexing: a negative index counts from the end. -/
def pyIndex (xs : List FactCheck) (i : ℤ) : Option FactCheck :=
  if 0 ≤ i then xs[i.toNat]?
  else if 0 ≤ (xs.length : ℤ) + i then xs[((xs.length : ℤ) + i).toNat]? else Option.none

/-- Models `SemanticRetriever.retrieve_similar_claims` (lines 87-111) after the index
has been loaded or built: empty when there is no index or no corpus; otherwise
every search slot whose index passes the `idx < len(self.fact_checks)` guard
contributes `(self.fact_checks[idx], score)` — the padding index `-1` passes
the guard and Python indexing wraps it to the last record. -/
def retrieveSimilarClaims (indexLoaded : Bool) (fact_checks : List FactCheck)
    (sims : List ℚ) (top_k : ℕ) : List (FactCheck × ℚ) :=
  if !indexLoaded || fact_checks.length == 0 then []
  else
    (faissSearch sims top_k).filterMap (fun p =>
      if p.2 < (fact_checks.length : ℤ) then
        (pyIndex fact_checks p.2).map (fun fc => (fc, p.1))
      else Option.none)

/-- The corpus record of spec Scenario A, used as the one-record corpus. -/
def fcVaccines : FactCheck :=
  { id := 1, claim := "Vaccines are safe and effective", verdict := "TRUE",
    explanation := "Extensive studies confirm vaccine safety", source := "CDC",
    source_url := some "https://cdc.gov", date_published := Option.none,
    embedding := Option.none }

/-! ## `Database.cache_analysis` / `Database.get_cached_analysis`
(models/database.py, lines 96-121)

The `analysis_cache` table declares `input_hash TEXT UNIQUE`, so
`INSERT OR REPLACE` deletes any row with the same hash and inserts the new
one, and `SELECT result ... WHERE input_hash = ?` returns at most one row.
`json.dumps`/`json.loads` round-trip the stored result exactly, so the model
stores the result value itself. -/

/-- The rows of the `analysis_cache` table. -/
structure AnalysisCache (α : Type) where
  rows : List (String × α)

/-- Models `Database.cache_analysis` (lines 96-108): `INSERT OR REPLACE` keyed on the
unique `input_hash`. -/
def cacheAnalysis {α : Type} (st : AnalysisCache α) (input_hash : String) (result : α) :
    AnalysisCache α :=
  ⟨(input_hash, result) :: st.rows.filter (fun r => r.1 != input_hash)⟩

/-- Models `Database.get_cached_analysis` (lines 110-121): the cached result, or
Python `None` on a miss. -/
def getCachedAnalysis {α : Type} (st : AnalysisCache α) (input_hash : String) : Option α :=
  (st.rows.find? (fun r => r.1 == input_hash)).map (·.2)

/-! ## `IndustrialFactChecker._calculate_final_scores`
(industrial_fact_checker.py, lines 1114-1181)

Line 1158 reads `hash(str(analysis_streams))`: Python string hashing is
randomised per process (`PYTHONHASHSEED`), so the hash value is passed in as
the explicit parameter `hashVal`. -/

/-- The fields of `analysis_streams` read by `_calculate_final_scores`:
per-source weights of the supporting and contradicting evidence (default
weight 1), `content.quality_score` and `source.credibility` (0 when absent). -/
structure AnalysisStreams where
  supportingWeights : List ℚ
  contradictingWeights : List ℚ
  quality_score : ℚ
  source_credibility : ℚ
deriving DecidableEq

/-- A knowledge-base match as read by `_calculate_final_scores`. -/
structure KBMatch where
  similarity : ℚ
  truthfulness : Bool
deriving DecidableEq

/-- The dict returned by `_calculate_final_scores`. -/
structure FinalScores where
  credibility_score : ℚ
  verdict : String
  confidence : ℚ
  evidence_score : ℚ
  quality_impact : ℚ
  source_impact : ℚ
  kb_impact : ℚ
  variation : ℚ
deriving DecidableEq

/-- Models `variation = ((hash(str(analysis_streams)) % 11) - 5) * 0.5` (line 1158);
Python `%` on a positive modulus is Euclidean. -/
def calcVariation (hashVal : ℤ) : ℚ := (((hashVal.emod 11) - 5 : ℤ) : ℚ) * (1/2)

/-- Models `evidence_score` (lines 1117-1125): share of supporting weight, or the
neutral 50 when there is no weighted evidence. -/
def evidenceScoreOf (streams : AnalysisStreams) : ℚ :=
  let sw := streams.supportingWeights.sum
  let cw := streams.contradictingWeights.sum
  if 0 < sw + cw then sw / (sw + cw) * 100 else 50

/-- Models `quality_impact = (quality_score - 50) * 0.2` (lines 1128-1129). -/
def qualityImpactOf (streams : AnalysisStreams) : ℚ := (streams.quality_score - 50) * (2/10)

/-- Models `source_impact` (lines 1132-1135): only when a positive source credibility
is available. -/
def sourceImpactOf (streams : AnalysisStreams) : ℚ :=
  if 0 < streams.source_credibility then (streams.source_credibility - 50) * (15/100) else 0

/-- Models `kb_impact` (lines 1138-1143): scaled knowledge-base agreement above 0.85
similarity, signed by stored truthfulness. -/
def kbImpactOf (kb_match : Option KBMatch) : ℚ :=
  match kb_match with
  | some kb =>
    if kb.similarity > 85/100 then
      (if kb.truthfulness then 20 * (kb.similarity - 85/100) * 5
       else -20 * (kb.similarity - 85/100) * 5)
    else 0
  | Option.none => 0

/-- Models `final_credibility` (lines 1152-1159): the four impacts, the quality
multiplier, the hash-derived variation, clamped to [5, 95]. -/
def finalCredibilityOf (streams : AnalysisStreams) (quality_multiplier : ℚ)
    (kb_match : Option KBMatch) (hashVal : ℤ) : ℚ :=
  max 5 (min 95
    ((evidenceScoreOf streams + qualityImpactOf streams + sourceImpactOf streams +
        kbImpactOf kb_match) * quality_multiplier + calcVariation hashVal))

/-- Models `IndustrialFactChecker._calculate_final_scores` (lines 1114-1181).  The
`ml_impact` of lines 1146-1149 is computed by the source but never added to
`base_credibility` (line 1152), so the `ml_score`/`ml_confidence` arguments
cannot influence the result and are omitted from the model. -/
def calculateFinalScores (streams : AnalysisStreams) (quality_multiplier : ℚ)
    (kb_match : Option KBMatch) (hashVal : ℤ) : FinalScores :=
  let final_credibility := finalCredibilityOf streams quality_multiplier kb_match hashVal
  if final_credibility ≥ 70 then
    { credibility_score := final_credibility, verdict := "TRUE",
      confidence := min 1 ((final_credibility - 70) / 25),
      evidence_score := evidenceScoreOf streams, quality_impact := qualityImpactOf streams,
      source_impact := sourceImpactOf streams, kb_impact := kbImpactOf kb_match,
      variation := calcVariation hashVal }
  else if final_credibility ≤ 30 then
    { credibility_score := final_credibility, verdict := "FALSE",
      confidence := min 1 ((30 - final_credibility) / 25),
      evidence_score := evidenceScoreOf streams, quality_impact := qualityImpactOf streams,
      source_impact := sourceImpactOf streams, kb_impact := kbImpactOf kb_match,
      variation := calcVariation hashVal }
  else
    { credibility_score := final_credibility, verdict := "AMBIGUOUS",
      confidence := 1 - |final_credibility - 50| / 20,
      evidence_score := evidenceScoreOf streams, quality_impact := qualityImpactOf streams,
      source_impact := sourceImpactOf streams, kb_impact := kbImpactOf kb_match,
      variation := calcVariation hashVal }

/-- Concrete analysis streams sitting exactly at the TRUE threshold before
variation: evidence score 70, no quality, source or knowledge-base impact. -/
def streamsC8 : AnalysisStreams :=
  { supportingWeights := [7], contradictingWeights := [3],
    quality_score := 50, source_credibility := 0 }

/-- Concrete evidence analysis: a single SUPPORT item of reliability 80. -/
def aC6 : EvidenceAnalysis := ⟨[⟨"SUPPORT", 80⟩], [], [], 80⟩

/-- A concrete, fully-populated claim.py `Evidence` instance, used to exercise
`calculate_credibility_fingerprint` on a non-empty evidence list. -/
def evC10 : PyEvidence :=
  { text := "Vaccines are safe", source := "CDC", url := some "https://cdc.gov",
    etype := "SUPPORT", reliability_score := 90, date := Option.none,
    region := Option.none, verification_method := "fact-check" }

/-!
# Theorems

One theorem (plus witness or counterexample where required) per claim C1-C10.
-/

/-- C1 counterexample: on an evidence list with positive total weight,
support share `1/2 ≤ 0.6`, contradict share `0 ≤ 0.6` and gap `1/2 ≥ 0.2`,
`NLIVerifier.aggregate_evidence_verdict` returns UNVERIFIED, not the
higher-share verdict LIKELY_TRUE that the claim requires. -/
theorem C1_counterexample :
    evC1 ≠ [] ∧ 0 < totalScoreAgg evC1 ∧
    entailmentScore evC1 / totalScoreAgg evC1 ≤ 6/10 ∧
    contradictionScore evC1 / totalScoreAgg evC1 ≤ 6/10 ∧
    2/10 ≤ |entailmentScore evC1 / totalScoreAgg evC1 -
      contradictionScore evC1 / totalScoreAgg evC1| ∧
    contradictionScore evC1 / totalScoreAgg evC1 <
      entailmentScore evC1 / totalScoreAgg evC1 ∧
    aggregateEvidenceVerdict evC1 = ("UNVERIFIED", .inconclusive) := by
  refine ⟨by decide, ?_, ?_, ?_, ?_, ?_, ?_⟩ <;>
    simp [evC1, totalScoreAgg, entailmentScore, contradictionScore, neutralScore,
      aggWeight, aggregateEvidenceVerdict, List.filter_cons] <;> norm_num [abs_lt, le_abs]

/-- C1 (amended): for `IndustrialFactChecker._decide_verdict`, whenever the
total weight is positive, both shares are at most 0.6 and the shares differ by
at least 0.2, the verdict is the one with the higher share — TRUE when the
support share is larger, else FALSE. -/
theorem C1_amended_higher_share_wins (ec : EvidenceComparison)
    (h0 : 0 < totalWeight ec)
    (h1 : supportShare ec ≤ 6/10)
    (h2 : contradictShare ec ≤ 6/10)
    (h3 : 2/10 ≤ |supportShare ec - contradictShare ec|) :
    decideVerdict ec = if supportShare ec > contradictShare ec then "TRUE" else "FALSE" := by
  unfold decideVerdict
  rw [if_pos h0]
  have hn1 : ¬(supportShare ec > 7/10 ∧ ec.supportingCount ≥ 2 ∧ ec.supportWeight > 150) := by
    rintro ⟨h, -, -⟩; linarith
  have hn2 : ¬(contradictShare ec > 7/10 ∧ ec.contradictingCount ≥ 2 ∧
      ec.contradictWeight > 150) := by
    rintro ⟨h, -, -⟩; linarith
  have hn3 : ¬(supportShare ec > 6/10 ∧ ec.supportWeight > 100) := by
    rintro ⟨h, -⟩; linarith
  have hn4 : ¬(contradictShare ec > 6/10 ∧ ec.contradictWeight > 100) := by
    rintro ⟨h, -⟩; linarith
  have hn5 : ¬(|supportShare ec - contradictShare ec| < 2/10) := by linarith
  rw [if_neg hn1, if_neg hn2, if_neg hn3, if_neg hn4, if_neg hn5]

/-- Witness for `C1_amended_higher_share_wins` at weights 50/20/30. -/
theorem C1_amended_witness :
    0 < totalWeight ecC1 ∧ supportShare ecC1 ≤ 6/10 ∧ contradictShare ecC1 ≤ 6/10 ∧
    2/10 ≤ |supportShare ecC1 - contradictShare ecC1| ∧
    decideVerdict ecC1 = if supportShare ecC1 > contradictShare ecC1 then "TRUE" else "FALSE" :=
  ⟨by norm_num [totalWeight, ecC1], by norm_num [supportShare, totalWeight, ecC1],
   by norm_num [contradictShare, totalWeight, ecC1],
   by norm_num [supportShare, contradictShare, totalWeight, ecC1, le_abs],
   C1_amended_higher_share_wins ecC1 (by norm_num [totalWeight, ecC1])
     (by norm_num [supportShare, totalWeight, ecC1])
     (by norm_num [contradictShare, totalWeight, ecC1])
     (by norm_num [supportShare, contradictShare, totalWeight, ecC1, le_abs])⟩

/-- C2 (code bug): over a one-record corpus with `top_k = 5`, the FAISS result
is padded with index `-1`; the guard `idx < len(fact_checks)` accepts `-1`, and
Python indexing wraps it to the last record, so the query returns the sole
record five times (four of them with the sentinel padding score) instead of
the full corpus exactly once.  An unbuilt/empty index still yields `[]`. -/
theorem C2_padding_duplicates :
    retrieveSimilarClaims true [fcVaccines] [9/10] 5 =
      [(fcVaccines, 9/10), (fcVaccines, faissPadScore), (fcVaccines, faissPadScore),
       (fcVaccines, faissPadScore), (fcVaccines, faissPadScore)] ∧
    (retrieveSimilarClaims true [fcVaccines] [9/10] 5).length ≠ [fcVaccines].length ∧
    retrieveSimilarClaims false [fcVaccines] [9/10] 5 = [] := by
  have h : retrieveSimilarClaims true [fcVaccines] [9/10] 5 =
      [(fcVaccines, 9/10), (fcVaccines, faissPadScore), (fcVaccines, faissPadScore),
       (fcVaccines, faissPadScore), (fcVaccines, faissPadScore)] := by
    norm_num [retrieveSimilarClaims, faissSearch, sortDesc, insertDesc, pyIndex,
      faissPadScore, List.enum, List.enumFrom, List.foldl, List.filterMap, List.replicate]
  refine ⟨h, by rw [h]; decide, by norm_num [retrieveSimilarClaims]⟩

/-- C3: the heuristic fallback stance of `NLIVerifier._fallback_verification`
is a pure function of the stored verdict and the similarity score: a TRUE
verdict gives ENTAILMENT (the SUPPORT stance) at confidence
`min(0.8, similarity + 0.1)`, a FALSE verdict gives CONTRADICTION with the
same confidence rule, and any other verdict gives NEUTRAL. -/
theorem C3_fallback_stance (fc : FactCheck) (sim : ℚ) :
    (pyUpper fc.verdict = "TRUE" →
      fallbackStance fc sim = ("ENTAILMENT", min (8/10) (sim + 1/10))) ∧
    (pyUpper fc.verdict = "FALSE" →
      fallbackStance fc sim = ("CONTRADICTION", min (8/10) (sim + 1/10))) ∧
    (pyUpper fc.verdict ≠ "TRUE" → pyUpper fc.verdict ≠ "FALSE" →
      fallbackStance fc sim = ("NEUTRAL", sim)) := by
  refine ⟨fun h => ?_, fun h => ?_, fun hT hF => ?_⟩ <;> simp [fallbackStance, *]

/-- Witness for `C3_fallback_stance` on the Scenario A record at similarity
`1/2`. -/
theorem C3_fallback_stance_witness :
    pyUpper fcVaccines.verdict = "TRUE" ∧
    fallbackStance fcVaccines (1/2) = ("ENTAILMENT", min (8/10) (1/2 + 1/10)) :=
  ⟨by decide, (C3_fallback_stance fcVaccines (1/2)).1 (by decide)⟩

/-- C4 (amended): on the empty evidence analysis,
`EnhancedFactChecker._calculate_credibility_scores` returns the neutral default
fingerprint (50, 50, 0, 0, 100) and `_generate_verdict` yields AMBIGUOUS. -/
theorem C4_enhanced_empty_default :
    calculateCredibilityScores ⟨[], [], [], 0⟩ =
      { overall_credibility := 50, source_trust := 50, corroboration_count := 0,
        contradiction_count := 0, language_safety := 100 } ∧
    generateVerdict ⟨[], [], [], 0⟩ (calculateCredibilityScores ⟨[], [], [], 0⟩) =
      "AMBIGUOUS" := by
  constructor
  · simp [calculateCredibilityScores, enhCredibility, avgReliability, enhLanguageSafety,
      enhEvidenceList]
    norm_num
  · simp [generateVerdict, calculateCredibilityScores, enhCredibility, avgReliability,
      enhLanguageSafety, enhEvidenceList]
    norm_num

/-- C4 counterexample: `CredibilityScorer.calculate_credibility_fingerprint`
on the empty evidence list does not return the neutral default fingerprint —
it raises a pydantic `ValidationError` because its `CredibilityFingerprint(...)`
call omits the required fields. -/
theorem C4_scorer_raises_instead :
    calculateCredibilityFingerprint (fun _ => 50) (fun d => d) "" [] Option.none =
      .error (.validationError
        ["overall_credibility", "source_trust", "contradiction_count", "language_safety"]) := by
  rfl

/-- C5: cache round-trip over the `analysis_cache` table: a `get` after
`put(key, result)` returns exactly `result`; a key present in no row misses
(Python `None`); and `put` is an upsert, so the second of two puts to the same
key wins. -/
theorem C5_cache_roundtrip {α : Type} (st : AnalysisCache α) (k k2 : String) (v v2 : α) :
    getCachedAnalysis (cacheAnalysis st k v) k = some v ∧
    ((∀ r ∈ st.rows, r.1 ≠ k2) → getCachedAnalysis st k2 = Option.none) ∧
    getCachedAnalysis (cacheAnalysis (cacheAnalysis st k v) k v2) k = some v2 := by
  refine ⟨?_, ?_, ?_⟩
  · simp [getCachedAnalysis, cacheAnalysis, List.find?]
  · intro h
    have hf : st.rows.find? (fun r => r.1 == k2) = Option.none := by
      rw [List.find?_eq_none]
      intro x hx
      simpa using h x hx
    simp [getCachedAnalysis, hf]
  · simp [getCachedAnalysis, cacheAnalysis, List.find?]

/-- Witness for `C5_cache_roundtrip` on an empty cache of natural-number
results. -/
theorem C5_cache_roundtrip_witness :
    getCachedAnalysis (cacheAnalysis (AnalysisCache.mk ([] : List (String × ℕ))) "k" 1) "k" =
      some 1 ∧
    (∀ r ∈ (AnalysisCache.mk ([] : List (String × ℕ))).rows, r.1 ≠ "other") ∧
    getCachedAnalysis (AnalysisCache.mk ([] : List (String × ℕ))) "other" = Option.none ∧
    getCachedAnalysis
      (cacheAnalysis (cacheAnalysis (AnalysisCache.mk ([] : List (String × ℕ))) "k" 1) "k" 2)
      "k" = some 2 :=
  ⟨(C5_cache_roundtrip (AnalysisCache.mk []) "k" "other" 1 2).1, by simp,
   (C5_cache_roundtrip (AnalysisCache.mk ([] : List (String × ℕ))) "k" "other" 1 2).2.1
     (by simp),
   (C5_cache_roundtrip (AnalysisCache.mk []) "k" "other" 1 2).2.2⟩

/-- C6 counterexample: starting from one SUPPORT item of reliability 80
(overall credibility 80, verdict TRUE), appending one SUPPORT item of
high reliability 71 (above the trust threshold 70) lowers overall_credibility
to 75.5 and demotes the verdict from TRUE to AMBIGUOUS. -/
theorem C6_append_support_lowers_score :
    generateVerdict aC6 (calculateCredibilityScores aC6) = "TRUE" ∧
    (70:ℚ) < 71 ∧
    (calculateCredibilityScores (appendSupport aC6 71)).overall_credibility <
      (calculateCredibilityScores aC6).overall_credibility ∧
    generateVerdict (appendSupport aC6 71) (calculateCredibilityScores (appendSupport aC6 71)) =
      "AMBIGUOUS" := by
  refine ⟨?_, by norm_num, ?_, ?_⟩ <;>
    simp [generateVerdict, calculateCredibilityScores, enhCredibility, avgReliability,
      enhLanguageSafety, enhEvidenceList, appendSupport, aC6, List.filter_cons] <;>
    norm_num

/-- C6 (amended): appending one SUPPORT item never lowers overall_credibility
and preserves a TRUE verdict, provided the analysis already holds at least one
SUPPORT or CONTRADICT item, reliabilities are non-negative, and the appended
reliability is at least the current average (without these extra conditions
the claim fails, see the counterexample: the score factors in average
reliability, so a below-average item drags it down). -/
theorem C6_monotone_above_average (a : EvidenceAnalysis) (r : ℚ)
    (h0 : 0 ≤ a.total_reliability)
    (hc : 0 < a.supporting.length + a.contradicting.length)
    (hr : avgReliability a ≤ r) :
    (calculateCredibilityScores a).overall_credibility ≤
      (calculateCredibilityScores (appendSupport a r)).overall_credibility ∧
    (generateVerdict a (calculateCredibilityScores a) = "TRUE" →
      generateVerdict (appendSupport a r) (calculateCredibilityScores (appendSupport a r)) =
        "TRUE") := by
  have hlen : (enhEvidenceList a).length =
      a.supporting.length + a.contradicting.length + a.contextual.length := by
    simp [enhEvidenceList]
    omega
  have hne : enhEvidenceList a ≠ [] := by
    apply List.ne_nil_of_length_pos
    omega
  have happlen : (enhEvidenceList (appendSupport a r)).length =
      a.supporting.length + a.contradicting.length + a.contextual.length + 1 := by
    simp [enhEvidenceList, appendSupport]
    omega
  have hne' : enhEvidenceList (appendSupport a r) ≠ [] := by
    apply List.ne_nil_of_length_pos
    omega
  have hn0Q : (0:ℚ) < ((enhEvidenceList a).length : ℚ) := by
    have : 0 < (enhEvidenceList a).length := by omega
    exact_mod_cast this
  have havg : avgReliability a =
      a.total_reliability / ((enhEvidenceList a).length : ℚ) := by
    rw [avgReliability, if_neg hne]
  have happtot : (appendSupport a r).total_reliability = a.total_reliability + r := by
    simp [appendSupport]
  have havg' : avgReliability (appendSupport a r) =
      (a.total_reliability + r) / (((enhEvidenceList a).length : ℚ) + 1) := by
    rw [avgReliability, if_neg hne', happtot, happlen, hlen]
    push_cast
    ring_nf
  have hTrn : a.total_reliability ≤ r * ((enhEvidenceList a).length : ℚ) := by
    rw [havg, div_le_iff₀ hn0Q] at hr
    exact hr
  have havgle : a.total_reliability / ((enhEvidenceList a).length : ℚ) ≤
      (a.total_reliability + r) / (((enhEvidenceList a).length : ℚ) + 1) := by
    rw [div_le_div_iff₀ hn0Q (by linarith)]
    nlinarith [hTrn]
  have havg0 : 0 ≤ a.total_reliability / ((enhEvidenceList a).length : ℚ) :=
    div_nonneg h0 hn0Q.le
  have hs0 : (0:ℚ) ≤ (a.supporting.length : ℚ) := Nat.cast_nonneg _
  have hcc0 : (0:ℚ) ≤ (a.contradicting.length : ℚ) := Nat.cast_nonneg _
  have hsc1 : (1:ℚ) ≤ (a.supporting.length : ℚ) + (a.contradicting.length : ℚ) := by
    exact_mod_cast hc
  have hden : (0:ℚ) < (a.supporting.length : ℚ) + (a.contradicting.length : ℚ) * 2 := by
    linarith
  have hden' : (0:ℚ) <
      ((a.supporting.length : ℚ) + 1) + (a.contradicting.length : ℚ) * 2 := by
    linarith
  have hfact : (a.supporting.length : ℚ) * 100 /
        ((a.supporting.length : ℚ) + (a.contradicting.length : ℚ) * 2) ≤
      ((a.supporting.length : ℚ) + 1) * 100 /
        (((a.supporting.length : ℚ) + 1) + (a.contradicting.length : ℚ) * 2) := by
    rw [div_le_div_iff₀ hden hden']
    nlinarith [hcc0, hs0]
  have hfact0 : (0:ℚ) ≤ (a.supporting.length : ℚ) * 100 /
      ((a.supporting.length : ℚ) + (a.contradicting.length : ℚ) * 2) := by
    apply div_nonneg (by linarith) hden.le
  have hcredA : enhCredibility a =
      (a.supporting.length : ℚ) * 100 /
        ((a.supporting.length : ℚ) + (a.contradicting.length : ℚ) * 2) *
      (avgReliability a / 100) := by
    rw [enhCredibility, if_pos hc]
  have hsupp' : (appendSupport a r).supporting.length = a.supporting.length + 1 := by
    simp [appendSupport]
  have hcon' : (appendSupport a r).contradicting.length = a.contradicting.length := by
    simp [appendSupport]
  have hc' : 0 < (appendSupport a r).supporting.length +
      (appendSupport a r).contradicting.length := by
    omega
  have hcredB : enhCredibility (appendSupport a r) =
      ((a.supporting.length : ℚ) + 1) * 100 /
        (((a.supporting.length : ℚ) + 1) + (a.contradicting.length : ℚ) * 2) *
      (avgReliability (appendSupport a r) / 100) := by
    rw [enhCredibility, if_pos hc', hsupp', hcon']
    push_cast
    ring_nf
  have hcred : enhCredibility a ≤ enhCredibility (appendSupport a r) := by
    rw [hcredA, hcredB, havg, havg']
    apply mul_le_mul hfact
    · exact (div_le_div_iff_of_pos_right (by norm_num)).mpr havgle
    · exact div_nonneg havg0 (by norm_num)
    · exact le_trans hfact0 hfact
  have hoverall : max 0 (min 100 (enhCredibility a)) ≤
      max 0 (min 100 (enhCredibility (appendSupport a r))) :=
    max_le_max le_rfl (min_le_min le_rfl hcred)
  have hpart1 : (calculateCredibilityScores a).overall_credibility ≤
      (calculateCredibilityScores (appendSupport a r)).overall_credibility := by
    simp only [calculateCredibilityScores]
    exact hoverall
  refine ⟨hpart1, fun hT => ?_⟩
  have hOa : (calculateCredibilityScores a).overall_credibility ≥ 80 := by
    rw [generateVerdict] at hT
    by_cases hcond : 0 < a.supporting.length ∧
        (calculateCredibilityScores a).overall_credibility ≥ 80
    · exact hcond.2
    · rw [if_neg hcond] at hT
      split_ifs at hT <;> simp at hT
  have hs1 : 0 < (appendSupport a r).supporting.length := by omega
  have hO' : (calculateCredibilityScores (appendSupport a r)).overall_credibility ≥ 80 :=
    le_trans hOa hpart1
  rw [generateVerdict, if_pos ⟨hs1, hO'⟩]

/-- Witness for `C6_monotone_above_average`: one SUPPORT item of reliability
80, appending a SUPPORT item of reliability 90 (at least the average 80). -/
theorem C6_monotone_witness :
    (0:ℚ) ≤ aC6.total_reliability ∧
    0 < aC6.supporting.length + aC6.contradicting.length ∧
    avgReliability aC6 ≤ 90 ∧
    ((calculateCredibilityScores aC6).overall_credibility ≤
       (calculateCredibilityScores (appendSupport aC6 90)).overall_credibility ∧
     (generateVerdict aC6 (calculateCredibilityScores aC6) = "TRUE" →
       generateVerdict (appendSupport aC6 90)
         (calculateCredibilityScores (appendSupport aC6 90)) = "TRUE")) :=
  ⟨by norm_num [aC6], by norm_num [aC6],
   by norm_num [avgReliability, enhEvidenceList, aC6],
   C6_monotone_above_average aC6 90 (by norm_num [aC6]) (by norm_num [aC6])
     (by norm_num [avgReliability, enhEvidenceList, aC6])⟩

/-- C9: for every non-empty retrieved list, `verify_claim_against_evidence`
raises a pydantic `ValidationError` instead of returning an evidence list —
on the NLI path, on the per-item exception path and on the heuristic fallback
path alike, every `Evidence(...)` call omits the required fields `type`,
`reliability_score` and `verification_method`. -/
theorem C9_verify_raises_on_nonempty (nliLoaded : Bool)
    (nli : String → FactCheck → Option (String × ℚ)) (claim : String)
    (rfcs : List (FactCheck × ℚ)) (h : rfcs ≠ []) :
    (verifyClaimAgainstEvidence nliLoaded nli claim rfcs).isOk = false := by
  match rfcs, h with
  | (fc, sim) :: rest, _ =>
    cases nliLoaded with
    | false =>
      simp [verifyClaimAgainstEvidence, fallbackVerification, mkEvidence,
        verifierEvidenceKwargs, pyLookup, List.find?, pyEvidenceRequired, List.filter_cons,
        Except.isOk, Except.toBool]
    | true =>
      cases hres : nli claim fc with
      | none =>
        simp [verifyClaimAgainstEvidence, verifyNLIList, verifyOne, hres, mkEvidence,
          verifierEvidenceKwargs, pyLookup, List.find?, pyEvidenceRequired, List.filter_cons,
          Except.isOk, Except.toBool]
      | some lc =>
        obtain ⟨lbl, conf⟩ := lc
        simp [verifyClaimAgainstEvidence, verifyNLIList, verifyOne, hres, mkEvidence,
          verifierEvidenceKwargs, pyLookup, List.find?, pyEvidenceRequired, List.filter_cons,
          Except.isOk, Except.toBool]

/-- Witness for `C9_verify_raises_on_nonempty` on the fallback path with one
retrieved record. -/
theorem C9_verify_raises_witness :
    [(fcVaccines, (1:ℚ)/2)] ≠ [] ∧
    (verifyClaimAgainstEvidence false (fun _ _ => Option.none) "Are vaccines safe?"
      [(fcVaccines, 1/2)]).isOk = false :=
  ⟨by simp, C9_verify_raises_on_nonempty false (fun _ _ => Option.none) "Are vaccines safe?"
    [(fcVaccines, 1/2)] (by simp)⟩

/-- C10 counterexample: on a concrete non-empty evidence list,
`calculate_credibility_fingerprint` raises `AttributeError` on the
nonexistent `nli_label` attribute (credibility_scorer.py line 120) before the
`CredibilityFingerprint(...)` constructor is ever reached — not the validation
error the claim asserts for every input. -/
theorem C10_scorer_attribute_error :
    calculateCredibilityFingerprint (fun _ => 50) (fun d => d) "Vaccines are safe"
      [evC10] Option.none = .error (.attributeError "nli_label") := by
  rfl

/-- C10 (amended): `CredibilityScorer.calculate_credibility_fingerprint` never
returns a fingerprint, but the error mode depends on the input: on the empty
evidence list the `CredibilityFingerprint(...)` call raises a
`ValidationError` naming the omitted required fields `overall_credibility`,
`source_trust`, `contradiction_count` and `language_safety` (it passes
`source_credibility`, `language_risk` and `overall_score`, which do not exist
on the model); on every non-empty list the corroboration count fails earlier,
with an `AttributeError` on the nonexistent `nli_label` attribute of the
`Evidence` model, so the constructor is never reached there. -/
theorem C10_fingerprint_never_constructed :
    (∀ (getCred : String → ℚ) (extractDom : String → String) (claim : String)
        (evidence_list : List PyEvidence) (source_url : Option String),
      (calculateCredibilityFingerprint getCred extractDom claim evidence_list
          source_url).isOk = false) ∧
    (∀ (getCred : String → ℚ) (extractDom : String → String) (claim : String)
        (source_url : Option String),
      calculateCredibilityFingerprint getCred extractDom claim [] source_url =
        .error (.validationError
          ["overall_credibility", "source_trust", "contradiction_count",
           "language_safety"])) ∧
    (∀ (getCred : String → ℚ) (extractDom : String → String) (claim : String)
        (e : PyEvidence) (es : List PyEvidence) (source_url : Option String),
      calculateCredibilityFingerprint getCred extractDom claim (e :: es) source_url =
        .error (.attributeError "nli_label")) := by
  refine ⟨?_, ?_, ?_⟩
  · intro getCred extractDom claim evidence_list source_url
    cases evidence_list with
    | nil => rfl
    | cons e es => rfl
  · intro getCred extractDom claim source_url
    rfl
  · intro getCred extractDom claim e es source_url
    rfl

/-- C7 counterexample: on the Scenario D claim, the cited
`IndustrialFactChecker._assess_language_safety` scores exactly 50 — two
sensational-phrase matches (its exclamation pattern needs runs of three, so
the double marks contribute nothing, and there is no per-ALL-CAPS-token
penalty, only a flat capitalisation deduction) — which is not below 50 as the
claim requires. -/
theorem C7_industrial_scenario_at_50 :
    assessLanguageSafety scenarioClaim = 50 ∧ ¬ assessLanguageSafety scenarioClaim < 50 := by
  have hcount : sensationalPatternCount (pyUpper scenarioClaim) = 2 := by decide
  have hterr : wbSearch "TERRIFYING" (pyUpper scenarioClaim) = false := by decide
  have hdang : wbSearch "DANGEROUS" (pyUpper scenarioClaim) = false := by decide
  have hdead : wbSearch "DEADLY" (pyUpper scenarioClaim) = false := by decide
  have hup : upperCount scenarioClaim = 43 := by decide
  have hlen : scenarioClaim.length = 57 := by decide
  have hcaps : capsRatio scenarioClaim > 3/10 := by
    rw [capsRatio, hup, hlen]; norm_num
  have h : assessLanguageSafety scenarioClaim = 50 := by
    rw [assessLanguageSafety, hcount, hterr, hdang, hdead, if_pos hcaps]
    decide
  exact ⟨h, by rw [h]; decide⟩

/-- C7 (amended): language safety is 100 minus fixed penalties, but the two
cited implementations differ from the claimed rule: under
`EvidenceBasedVerifier._calculate_scores` each configured sensational pattern
that occurs (including a run of two or more exclamation marks, via one
pattern) deducts 15 once per pattern, clamped below at 0, and the Scenario D
claim scores 40 < 50; `IndustrialFactChecker._assess_language_safety` deducts
per match but only counts exclamation runs of length at least three, applies a
flat 20-point deduction when the capitalisation ratio exceeds 0.3 instead of a
per-ALL-CAPS-token penalty, and gives the same text exactly 50. -/
theorem C7_language_safety_scenario :
    ebLanguageSafety scenarioClaim = 40 ∧ ebLanguageSafety scenarioClaim < 50 ∧
    assessLanguageSafety scenarioClaim = 50 := by
  have hhits : ebSensationalHits (pyUpper scenarioClaim) = 4 := by decide
  have heb : ebLanguageSafety scenarioClaim = 40 := by
    rw [ebLanguageSafety, hhits]; decide
  have hcount : sensationalPatternCount (pyUpper scenarioClaim) = 2 := by decide
  have hterr : wbSearch "TERRIFYING" (pyUpper scenarioClaim) = false := by decide
  have hdang : wbSearch "DANGEROUS" (pyUpper scenarioClaim) = false := by decide
  have hdead : wbSearch "DEADLY" (pyUpper scenarioClaim) = false := by decide
  have hcaps : capsRatio scenarioClaim > 3/10 := by
    rw [capsRatio, (by decide : upperCount scenarioClaim = 43),
      (by decide : scenarioClaim.length = 57)]
    norm_num
  have hind : assessLanguageSafety scenarioClaim = 50 := by
    rw [assessLanguageSafety, hcount, hterr, hdang, hdead, if_pos hcaps]
    decide
  exact ⟨heb, by rw [heb]; decide, hind⟩

/-- Clamping to [5, 95] is 1-Lipschitz. -/
theorem clampFiveNinetyFive_lipschitz (x y : ℚ) :
    |max 5 (min 95 x) - max 5 (min 95 y)| ≤ |x - y| := by
  have h1 : |max (min 95 x) 5 - max (min 95 y) 5| ≤ |min 95 x - min 95 y| :=
    abs_max_sub_max_le_abs _ _ _
  have h2 : |min 95 x - min 95 y| ≤ |x - y| := by
    have h := abs_min_sub_min_le_max (95 : ℚ) x 95 y
    simpa using h
  calc |max 5 (min 95 x) - max 5 (min 95 y)|
      = |max (min 95 x) 5 - max (min 95 y) 5| := by rw [max_comm 5, max_comm 5]
    _ ≤ |min 95 x - min 95 y| := h1
    _ ≤ |x - y| := h2

/-- C8 counterexample: `_calculate_final_scores` depends on the value of
Python `hash(str(analysis_streams))`, which is randomised per process: on the
same streams (evidence score 70, no other impacts), hash residue 5 gives
variation 0 and verdict TRUE, while hash residue 4 gives variation −0.5 and
verdict AMBIGUOUS — so the pipeline carries non-semantic randomisation and
two runs in different processes can disagree. -/
theorem C8_hash_seed_changes_verdict :
    (calculateFinalScores streamsC8 1 Option.none 5).verdict = "TRUE" ∧
    (calculateFinalScores streamsC8 1 Option.none 4).verdict = "AMBIGUOUS" ∧
    (calculateFinalScores streamsC8 1 Option.none 5).credibility_score ≠
      (calculateFinalScores streamsC8 1 Option.none 4).credibility_score := by
  have h5 : finalCredibilityOf streamsC8 1 Option.none 5 = 70 := by
    norm_num [finalCredibilityOf, evidenceScoreOf, qualityImpactOf, sourceImpactOf,
      kbImpactOf, calcVariation, streamsC8, Int.emod]
  have h4 : finalCredibilityOf streamsC8 1 Option.none 4 = 139/2 := by
    norm_num [finalCredibilityOf, evidenceScoreOf, qualityImpactOf, sourceImpactOf,
      kbImpactOf, calcVariation, streamsC8, Int.emod]
  refine ⟨?_, ?_, ?_⟩ <;>
    simp [calculateFinalScores, h5, h4] <;> norm_num

/-- C8 (amended): for a fixed hash seed the scoring is a pure function of its
inputs, and across any two hash seeds the content-hash variation term
(`((hash mod 11) - 5) * 0.5`, bounded by ±2.5 before the [5, 95] clamp) moves
the final credibility score by at most 5 points. -/
theorem C8_score_jitter_bounded (streams : AnalysisStreams) (qm : ℚ)
    (kb : Option KBMatch) (h1 h2 : ℤ) :
    |(calculateFinalScores streams qm kb h1).credibility_score -
      (calculateFinalScores streams qm kb h2).credibility_score| ≤ 5 := by
  have hscore : ∀ h : ℤ, (calculateFinalScores streams qm kb h).credibility_score =
      finalCredibilityOf streams qm kb h := by
    intro h
    rw [calculateFinalScores]
    split_ifs <;> rfl
  have hv : ∀ h : ℤ, -(5/2 : ℚ) ≤ calcVariation h ∧ calcVariation h ≤ 5/2 := by
    intro h
    have hm0 : 0 ≤ h.emod 11 := Int.emod_nonneg h (by norm_num)
    have hm1 : h.emod 11 < 11 := Int.emod_lt_of_pos h (by norm_num)
    have hq1 : ((-5 : ℤ) : ℚ) ≤ ((h.emod 11 - 5 : ℤ) : ℚ) := by
      exact_mod_cast (by omega : (-5 : ℤ) ≤ h.emod 11 - 5)
    have hq2 : ((h.emod 11 - 5 : ℤ) : ℚ) ≤ ((5 : ℤ) : ℚ) := by
      exact_mod_cast (by omega : h.emod 11 - 5 ≤ 5)
    rw [calcVariation]
    push_cast at hq1 hq2 ⊢
    constructor <;> linarith
  rw [hscore h1, hscore h2, finalCredibilityOf, finalCredibilityOf]
  have hlip := clampFiveNinetyFive_lipschitz
    ((evidenceScoreOf streams + qualityImpactOf streams + sourceImpactOf streams +
        kbImpactOf kb) * qm + calcVariation h1)
    ((evidenceScoreOf streams + qualityImpactOf streams + sourceImpactOf streams +
        kbImpactOf kb) * qm + calcVariation h2)
  refine le_trans hlip ?_
  have hv1 := hv h1
  have hv2 := hv h2
  rw [abs_le]
  constructor <;> · simp only [add_sub_add_left_eq_sub]; linarith [hv1.1, hv1.2, hv2.1, hv2.2]

end CredLens
